import Mathlib

/-!
Shallow embedding of the salary-countdown server (src/routes.ts,
src/storage.ts, src/schema, src/mongoModels.ts).

JavaScript `number` arithmetic is modelled by exact rational arithmetic
(`ℚ`); timestamps (`Date.getTime()` values) are integers of milliseconds
(`ℤ`).  `Math.round x` is `⌊x + 1/2⌋` (round half toward +∞), and
`Number.prototype.toFixed(2)` also picks the larger candidate on a tie,
so both roundings to two decimals are `⌊100·x + 1/2⌋ / 100`.  Division by
zero in `ℚ` yields `0` where JavaScript would yield `Infinity`/`NaN`;
the only place this matters is a configuration with a zero
`monthlyHours` product, which the code does not guard.
-/

namespace SalaryServer

/-- `UserSettings` record from src/schema (src/unnamed/part_000). -/
structure UserSettings where
  id : String
  monthlySalary : ℚ
  dailyHours : ℚ
  weeklyDays : ℚ
  isHoliday : Bool
deriving Repr, DecidableEq

/-- `IncomeSession` record from src/schema (src/unnamed/part_000).
`sessionEnd` is the optional end timestamp. -/
structure IncomeSession where
  id : String
  userSettingsId : String
  sessionStart : ℤ
  sessionEnd : Option ℤ
  totalEarned : ℚ
  isActive : Bool
deriving Repr, DecidableEq

/-- JavaScript `Math.round`: round half toward positive infinity.
Written with `Rat.floor` so that it evaluates by kernel reduction. -/
def jsRound (x : ℚ) : ℤ := Rat.floor (x + 1/2)

/-- Rounding to two decimal places as done by both
`Math.round(x * 100) / 100` (rates endpoint) and
`parseFloat(x.toFixed(2))` (settlement): on a tie both pick the larger
candidate. -/
def round2 (x : ℚ) : ℚ := (jsRound (x * 100) : ℚ) / 100

/-- `settings.dailyHours * settings.weeklyDays * 4.33`
(src/routes.ts line 575 and line 516; 4.33 = average weeks per month). -/
def monthlyHoursOf (s : UserSettings) : ℚ :=
  s.dailyHours * s.weeklyDays * (433/100)

/-- `settings.monthlySalary / monthlyHours`
(src/routes.ts line 576 and line 517). -/
def hourlyRateOf (s : UserSettings) : ℚ :=
  s.monthlySalary / monthlyHoursOf s

/-- Response shape of GET /api/calculate-rates (src/routes.ts 580-585). -/
structure Rates where
  perMinute : ℚ
  perHour : ℚ
  perDay : ℚ
  monthlyHours : ℚ
deriving Repr, DecidableEq

/-- Body of the GET /api/calculate-rates/:userSettingsId handler after the
settings lookup succeeded (src/routes.ts 575-585). -/
def calculateRates (s : UserSettings) : Rates :=
  let monthlyHours := s.dailyHours * s.weeklyDays * (433/100)
  let hourlyRate := s.monthlySalary / monthlyHours
  let minuteRate := hourlyRate / 60
  let dailyRate := hourlyRate * s.dailyHours
  { perMinute := round2 minuteRate
    perHour := round2 hourlyRate
    perDay := round2 dailyRate
    monthlyHours := round2 monthlyHours }

/-- The whole GET /api/calculate-rates/:userSettingsId handler
(src/routes.ts 567-589): 404 "Settings not found" when the lookup fails,
otherwise a 200 response with the computed rates.  There is no other
error path: the computation itself is unconditional. -/
def calculateRatesEndpoint (settings : Option UserSettings) :
    Except String Rates :=
  match settings with
  | none => .error "Settings not found"
  | some s => .ok (calculateRates s)

/-- Persistent store contents: the two collections of
MemStorage/MongoStorage (src/storage.ts). -/
structure StoreState where
  userSettings : List UserSettings
  incomeSessions : List IncomeSession
deriving Repr, DecidableEq

/-- `storage.getUserSettings` / `getUserSettingsById`
(src/storage.ts 128-147, 300-302): lookup by id. -/
def getUserSettingsById (st : StoreState) (id : String) :
    Option UserSettings :=
  st.userSettings.find? (fun s => s.id == id)

/-- `storage.getIncomeSessionById` (src/storage.ts 304-321). -/
def getIncomeSessionById (st : StoreState) (id : String) :
    Option IncomeSession :=
  st.incomeSessions.find? (fun s => s.id == id)

/-- `storage.getActiveSession` (src/storage.ts 199-223): the session with
the given `userSettingsId` and `isActive = true`. -/
def getActiveSession (st : StoreState) (userSettingsId : String) :
    Option IncomeSession :=
  st.incomeSessions.find?
    (fun s => s.userSettingsId == userSettingsId && s.isActive)

/-- A `Partial<IncomeSession>` update object: each field is supplied
(`some`) or absent (`none`).  `sessionEnd` is itself optional in the
record, hence the nested `Option`. -/
structure SessionPatch where
  id : Option String
  userSettingsId : Option String
  sessionStart : Option ℤ
  sessionEnd : Option (Option ℤ)
  totalEarned : Option ℚ
  isActive : Option Bool
deriving Repr, DecidableEq

/-- The merge `{ ...existing, ...updateData }` of
MemStorage.updateIncomeSession (src/storage.ts 104-107): a supplied field
overwrites, an absent field keeps the existing value. -/
def applyPatch (s : IncomeSession) (p : SessionPatch) : IncomeSession :=
  { id := p.id.getD s.id
    userSettingsId := p.userSettingsId.getD s.userSettingsId
    sessionStart := p.sessionStart.getD s.sessionStart
    sessionEnd := p.sessionEnd.getD s.sessionEnd
    totalEarned := p.totalEarned.getD s.totalEarned
    isActive := p.isActive.getD s.isActive }

/-- `storage.updateIncomeSession` (src/storage.ts 97-110): find the
session by id; if absent return `none` and leave the store unchanged,
otherwise store and return the merged session. -/
def updateIncomeSession (st : StoreState) (id : String) (p : SessionPatch) :
    Option IncomeSession × StoreState :=
  match getIncomeSessionById st id with
  | none => (none, st)
  | some existing =>
    let updated := applyPatch existing p
    (some updated,
      { st with incomeSessions :=
          st.incomeSessions.map (fun s => if s.id == id then updated else s) })

/-- `storage.createIncomeSession` (src/storage.ts 81-95 and the mongoose
schema defaults, src/mongoModels.ts 33-39): fresh id, `sessionStart = now`,
no `sessionEnd`, `totalEarned = 0`, `isActive = true`. -/
def createIncomeSession (st : StoreState) (freshId userSettingsId : String)
    (now : ℤ) : IncomeSession × StoreState :=
  let session : IncomeSession :=
    { id := freshId, userSettingsId := userSettingsId, sessionStart := now
      sessionEnd := none, totalEarned := 0, isActive := true }
  (session, { st with incomeSessions := st.incomeSessions ++ [session] })

/-- POST /api/income-session handler (src/routes.ts 340-360): reject a
falsy `userSettingsId`, return an existing active session unchanged,
otherwise create a fresh one. -/
def startIncomeSessionHandler (st : StoreState) (userSettingsId : String)
    (now : ℤ) (freshId : String) : Except String IncomeSession × StoreState :=
  if userSettingsId = "" then (.error "User settings ID is required", st)
  else
    match getActiveSession st userSettingsId with
    | some active => (.ok active, st)
    | none =>
      let created := createIncomeSession st freshId userSettingsId now
      (.ok created.1, created.2)

/-- The quantity `elapsedMinutes * (hourlyRate / 60)` of the
DELETE /api/income-session/:id handler (src/routes.ts 511-519) before
its `toFixed(2)` rounding: `elapsedMs = now - sessionStart`,
`elapsedMinutes = elapsedMs / 1000 / 60` (fractional, not truncated),
`hourlyRate = monthlySalary / (dailyHours * weeklyDays * 4.33)`. -/
def unroundedEarned (settings : UserSettings) (sessionStart now : ℤ) : ℚ :=
  (((now : ℚ) - (sessionStart : ℚ)) / 1000 / 60) * (hourlyRateOf settings / 60)

/-- The earned amount computed by the DELETE /api/income-session/:id
handler (src/routes.ts 511-520): fractional elapsed minutes times the
per-minute rate, rounded to two decimals by `toFixed(2)`. -/
def earnedAmount (settings : UserSettings) (sessionStart now : ℤ) : ℚ :=
  round2 (unroundedEarned settings sessionStart now)

/-- The update object passed to `storage.updateIncomeSession` at
settlement (src/routes.ts 522-526). -/
def settlePatch (earned : ℚ) (now : ℤ) : SessionPatch :=
  { id := none, userSettingsId := none, sessionStart := none
    sessionEnd := some (some now), totalEarned := some earned
    isActive := some false }

/-- DELETE /api/income-session/:id handler (src/routes.ts 497-533).
404 "Active session not found" when the session is missing or inactive,
404 "User settings not found" when its configuration is missing;
otherwise settle and store.  The success payload is the `Option` result
of `updateIncomeSession`, exactly as `res.json(updatedSession)` sends it. -/
def endIncomeSessionHandler (st : StoreState) (id : String) (now : ℤ) :
    Except String (Option IncomeSession) × StoreState :=
  match getIncomeSessionById st id with
  | none => (.error "Active session not found", st)
  | some session =>
    if session.isActive then
      match getUserSettingsById st session.userSettingsId with
      | none => (.error "User settings not found", st)
      | some settings =>
        let earned := earnedAmount settings session.sessionStart now
        let result := updateIncomeSession st id (settlePatch earned now)
        (.ok result.1, result.2)
    else (.error "Active session not found", st)

/-- Scenario A configuration: monthlySalary 5000, dailyHours 8,
weeklyDays 5. -/
def cfgA : UserSettings :=
  { id := "cfg-1", monthlySalary := 5000, dailyHours := 8, weeklyDays := 5
    isHoliday := false }

/-- A configuration with `dailyHours = 0`, so the `monthlyHours` product
is zero (forbidden by the invariant, but nothing in the handler checks
it). -/
def cfgZero : UserSettings :=
  { id := "cfg-0", monthlySalary := 5000, dailyHours := 0, weeklyDays := 5
    isHoliday := false }

/- Concrete sessions and store contents used to exercise the handlers. -/

def sessC2 : IncomeSession :=
  { id := "sess-2", userSettingsId := "cfg-1", sessionStart := 0
    sessionEnd := none, totalEarned := 0, isActive := true }

def stC2 : StoreState := { userSettings := [cfgA], incomeSessions := [sessC2] }

def sessC8 : IncomeSession :=
  { id := "sess-8", userSettingsId := "cfg-1", sessionStart := 5
    sessionEnd := none, totalEarned := 0, isActive := true }

def stC8 : StoreState := { userSettings := [], incomeSessions := [sessC8] }

def stEmpty : StoreState := { userSettings := [], incomeSessions := [] }

def sessC9 : IncomeSession :=
  { id := "sess-9", userSettingsId := "cfg-1", sessionStart := 0
    sessionEnd := some 10, totalEarned := 5, isActive := false }

def stC9 : StoreState := { userSettings := [cfgA], incomeSessions := [sessC9] }

def sessC10 : IncomeSession :=
  { id := "sess-10", userSettingsId := "cfg-1", sessionStart := 0
    sessionEnd := none, totalEarned := 0, isActive := true }

def stC10 : StoreState := { userSettings := [cfgA], incomeSessions := [sessC10] }

/-- A partial update supplying only `totalEarned`. -/
def patchC10 : SessionPatch :=
  { id := none, userSettingsId := none, sessionStart := none
    sessionEnd := none, totalEarned := some 5, isActive := none }

/- Helper lemmas about the rounding function. -/

theorem jsRound_eq_intFloor (x : ℚ) : jsRound x = ⌊x + 1/2⌋ := rfl

theorem jsRound_eq_of (x : ℚ) (n : ℤ) (h1 : (n : ℚ) ≤ x + 1/2)
    (h2 : x + 1/2 < (n : ℚ) + 1) : jsRound x = n := by
  rw [jsRound_eq_intFloor]
  exact Int.floor_eq_iff.mpr ⟨h1, by exact_mod_cast h2⟩

theorem round2_eq_of (x : ℚ) (n : ℤ) (h1 : (n : ℚ) ≤ x * 100 + 1/2)
    (h2 : x * 100 + 1/2 < (n : ℚ) + 1) : round2 x = (n : ℚ) / 100 := by
  rw [round2, jsRound_eq_of (x * 100) n h1 h2]

theorem round2_zero : round2 0 = 0 := by
  rw [round2_eq_of 0 0 (by norm_num) (by norm_num)]
  norm_num

theorem round2_mono {x y : ℚ} (h : x ≤ y) : round2 x ≤ round2 y := by
  unfold round2
  have h1 : jsRound (x * 100) ≤ jsRound (y * 100) := by
    rw [jsRound_eq_intFloor, jsRound_eq_intFloor]
    exact Int.floor_mono (by linarith)
  have h2 : ((jsRound (x * 100) : ℚ)) ≤ ((jsRound (y * 100) : ℚ)) := by
    exact_mod_cast h1
  linarith

theorem round2_nonpos {x : ℚ} (h : x ≤ 0) : round2 x ≤ 0 := by
  have := round2_mono h
  rwa [round2_zero] at this

/-- Evaluation of the rate calculation on the Scenario A configuration:
the exact hourly rate is 12500/433 = 28.8683…, which rounds to 28.87,
and the exact daily rate is 100000/433 = 230.9468…, which rounds to
230.95. -/
theorem calcA_eval : calculateRates cfgA =
    { perMinute := 48/100, perHour := 2887/100, perDay := 23095/100
      monthlyHours := 1732/10 } := by
  have h0 : calculateRates cfgA =
      { perMinute := round2 ((5000 : ℚ) / (8 * 5 * (433/100)) / 60)
        perHour := round2 ((5000 : ℚ) / (8 * 5 * (433/100)))
        perDay := round2 ((5000 : ℚ) / (8 * 5 * (433/100)) * 8)
        monthlyHours := round2 ((8 : ℚ) * 5 * (433/100)) } := rfl
  have h1 : round2 ((5000 : ℚ) / (8 * 5 * (433/100)) / 60) = 48/100 := by
    rw [round2_eq_of _ 48 (by norm_num) (by norm_num)]
    norm_num
  have h2 : round2 ((5000 : ℚ) / (8 * 5 * (433/100))) = 2887/100 := by
    rw [round2_eq_of _ 2887 (by norm_num) (by norm_num)]
    norm_num
  have h3 : round2 ((5000 : ℚ) / (8 * 5 * (433/100)) * 8) = 23095/100 := by
    rw [round2_eq_of _ 23095 (by norm_num) (by norm_num)]
    norm_num
  have h4 : round2 ((8 : ℚ) * 5 * (433/100)) = 1732/10 := by
    rw [round2_eq_of _ 17320 (by norm_num) (by norm_num)]
    norm_num
  rw [h0, h1, h2, h3, h4]

/-- C1: for every salary configuration with positive salary,
0 < dailyHours ≤ 24 and 0 < weeklyDays ≤ 7, the rate calculation
returns exactly the record whose monthlyHours is
dailyHours * weeklyDays * 4.33, whose perHour is
monthlySalary / monthlyHours, whose perMinute is hourlyRate / 60 and
whose perDay is hourlyRate * dailyHours, each of the four outputs
independently rounded to two decimals, with the three rates derived
from the unrounded hourly rate. -/
theorem rates_formula_correct (s : UserSettings)
    (hm : 0 < s.monthlySalary) (hd0 : 0 < s.dailyHours)
    (hd1 : s.dailyHours ≤ 24) (hw0 : 0 < s.weeklyDays)
    (hw1 : s.weeklyDays ≤ 7) :
    calculateRates s =
      { perMinute :=
          round2 (s.monthlySalary / (s.dailyHours * s.weeklyDays * (433/100)) / 60)
        perHour :=
          round2 (s.monthlySalary / (s.dailyHours * s.weeklyDays * (433/100)))
        perDay :=
          round2 (s.monthlySalary / (s.dailyHours * s.weeklyDays * (433/100))
            * s.dailyHours)
        monthlyHours :=
          round2 (s.dailyHours * s.weeklyDays * (433/100)) } := rfl

/-- Witness for C1 at the Scenario A configuration. -/
theorem rates_formula_correct_witness :
    0 < cfgA.monthlySalary ∧ 0 < cfgA.dailyHours ∧ cfgA.dailyHours ≤ 24 ∧
    0 < cfgA.weeklyDays ∧ cfgA.weeklyDays ≤ 7 ∧
    calculateRates cfgA =
      { perMinute :=
          round2 (cfgA.monthlySalary / (cfgA.dailyHours * cfgA.weeklyDays * (433/100)) / 60)
        perHour :=
          round2 (cfgA.monthlySalary / (cfgA.dailyHours * cfgA.weeklyDays * (433/100)))
        perDay :=
          round2 (cfgA.monthlySalary / (cfgA.dailyHours * cfgA.weeklyDays * (433/100))
            * cfgA.dailyHours)
        monthlyHours :=
          round2 (cfgA.dailyHours * cfgA.weeklyDays * (433/100)) } :=
  ⟨by decide, by decide, by decide, by decide, by decide,
    rates_formula_correct cfgA (by decide) (by decide) (by decide) (by decide)
      (by decide)⟩

/-- C3 counterexample: on the Scenario A configuration the rate
calculation does not return the quadruple (173.2, 28.86, 0.48, 230.88)
stated by the spec: the hourly rate 5000/173.2 = 28.8683… rounds to
28.87, not 28.86. -/
theorem scenarioA_claim_false :
    ¬ ((calculateRates cfgA).monthlyHours = 1732/10 ∧
       (calculateRates cfgA).perHour = 2886/100 ∧
       (calculateRates cfgA).perMinute = 48/100 ∧
       (calculateRates cfgA).perDay = 23088/100) := by
  intro h
  have hh := h.2.1
  rw [calcA_eval] at hh
  norm_num at hh

/-- C3 amended: on the Scenario A configuration {monthlySalary 5000,
dailyHours 8, weeklyDays 5} the rate calculation returns
monthlyHours = 173.2, perHour = 28.87, perMinute = 0.48 and
perDay = 230.95, all rounded to two decimals. -/
theorem scenarioA_values : calculateRates cfgA =
    { perMinute := 48/100, perHour := 2887/100, perDay := 23095/100
      monthlyHours := 1732/10 } := calcA_eval

/-- C2: whenever the DELETE handler finds the session active and its
configuration present, it settles the session with
earned = round2(elapsedMinutes * (hourlyRate / 60)), where
elapsedMinutes = (now - sessionStart) / 1000 / 60 is a fractional
number of minutes and hourlyRate is recomputed from the configuration
by the Rate Calculator formula monthlySalary / (dailyHours * weeklyDays
* 4.33); the resulting session carries totalEarned = earned,
sessionEnd = now and isActive = false. -/
theorem settlement_formula_correct (st : StoreState) (id : String)
    (now : ℤ) (sess : IncomeSession) (settings : UserSettings)
    (hfind : getIncomeSessionById st id = some sess)
    (hactive : sess.isActive = true)
    (hset : getUserSettingsById st sess.userSettingsId = some settings) :
    (endIncomeSessionHandler st id now).1 =
      .ok (some { sess with
        totalEarned := round2 ((((now : ℚ) - (sess.sessionStart : ℚ)) / 1000 / 60)
          * (settings.monthlySalary
              / (settings.dailyHours * settings.weeklyDays * (433/100)) / 60))
        sessionEnd := some now
        isActive := false }) := by
  simp only [endIncomeSessionHandler, hfind, hactive, if_true,
    hset, updateIncomeSession, earnedAmount, unroundedEarned, hourlyRateOf,
    monthlyHoursOf, applyPatch, settlePatch, Option.getD]

/-- Witness for C2: one active session over the Scenario A
configuration, settled one hour after it started. -/
theorem settlement_formula_correct_witness :
    getIncomeSessionById stC2 "sess-2" = some sessC2 ∧
    sessC2.isActive = true ∧
    getUserSettingsById stC2 sessC2.userSettingsId = some cfgA ∧
    (endIncomeSessionHandler stC2 "sess-2" 3600000).1 =
      .ok (some { sessC2 with
        totalEarned := round2 (((3600000 - (sessC2.sessionStart : ℚ)) / 1000 / 60)
          * (cfgA.monthlySalary
              / (cfgA.dailyHours * cfgA.weeklyDays * (433/100)) / 60))
        sessionEnd := some 3600000
        isActive := false }) :=
  ⟨rfl, rfl, rfl,
    settlement_formula_correct stC2 "sess-2" 3600000 sessC2 cfgA rfl rfl rfl⟩

/-- C4 counterexample: on a configuration whose monthlyHours product is
zero the rate endpoint does not fail: it answers with a 200 payload (in
the exact-arithmetic model all four outputs collapse to 0 by the
division-by-zero convention; in JavaScript they would be Infinity/NaN).
No InvalidConfiguration error exists anywhere in the code. -/
theorem zero_config_no_error_raised :
    monthlyHoursOf cfgZero = 0 ∧
    calculateRatesEndpoint (some cfgZero) =
      .ok { perMinute := 0, perHour := 0, perDay := 0, monthlyHours := 0 } := by
  constructor
  · simp [monthlyHoursOf, cfgZero]
  · simp only [calculateRatesEndpoint, calculateRates, cfgZero]
    norm_num [round2_zero]

/-- C4 amended: the code performs no zero-division check; for every
configuration whose monthlyHours product is zero the rate endpoint
silently succeeds with computed outputs (division by zero: 0 in the
exact model, Infinity/NaN in JavaScript) instead of failing with an
InvalidConfiguration error. -/
theorem zero_config_silent_ok (s : UserSettings)
    (h : monthlyHoursOf s = 0) :
    calculateRatesEndpoint (some s) =
      .ok { perMinute := 0, perHour := 0, perDay := 0, monthlyHours := 0 } := by
  have h0 : s.dailyHours * s.weeklyDays * (433/100) = 0 := h
  simp only [calculateRatesEndpoint, calculateRates, h0]
  norm_num [round2_zero]

/-- Witness for C4 amended at the zero-dailyHours configuration. -/
theorem zero_config_silent_ok_witness :
    monthlyHoursOf cfgZero = 0 ∧
    calculateRatesEndpoint (some cfgZero) =
      .ok { perMinute := 0, perHour := 0, perDay := 0, monthlyHours := 0 } :=
  ⟨by simp [monthlyHoursOf, cfgZero],
    zero_config_silent_ok cfgZero (by simp [monthlyHoursOf, cfgZero])⟩

/-- Evaluation of the settlement amount one minute before the session
start on the Scenario A configuration: elapsedMinutes = -1, the
per-minute rate is 625/1299 = 0.48114…, and toFixed(2) rounding gives
-0.48. -/
theorem earned_negative_eval : earnedAmount cfgA 60000 0 = -(48/100) := by
  have h0 : earnedAmount cfgA 60000 0 =
      round2 ((((0 : ℚ) - 60000) / 1000 / 60)
        * ((5000 : ℚ) / (8 * 5 * (433/100)) / 60)) := rfl
  rw [h0, round2_eq_of _ (-48) (by norm_num) (by norm_num)]
  norm_num

/-- C5 counterexample: with the settlement instant 60 seconds before
sessionStart, the computed earned amount is -0.48, not 0: the code does
not clamp negative elapsed time. -/
theorem negative_elapsed_claim_false :
    (0 : ℤ) < 60000 ∧
    earnedAmount cfgA 60000 0 = -(48/100) ∧
    ¬ (earnedAmount cfgA 60000 0 = 0) := by
  refine ⟨by decide, earned_negative_eval, ?_⟩
  rw [earned_negative_eval]
  norm_num

/-- C5 amended: the code does not guard `now < sessionStart`; the
elapsed time stays negative, and for a configuration with nonnegative
fields the computed earned amount is ≤ 0 (strictly negative once the
negative amount exceeds half a cent, e.g. -0.48 in the counterexample)
rather than being treated as zero. -/
theorem negative_elapsed_not_clamped (s : UserSettings) (start now : ℤ)
    (h : now ≤ start) (hm : 0 ≤ s.monthlySalary) (hd : 0 ≤ s.dailyHours)
    (hw : 0 ≤ s.weeklyDays) :
    unroundedEarned s start now ≤ 0 ∧ earnedAmount s start now ≤ 0 := by
  have hrate : 0 ≤ hourlyRateOf s := by
    refine div_nonneg hm ?_
    exact mul_nonneg (mul_nonneg hd hw) (by norm_num)
  have helapsed : ((now : ℚ) - (start : ℚ)) / 1000 / 60 ≤ 0 := by
    have : (now : ℚ) ≤ (start : ℚ) := by exact_mod_cast h
    linarith
  have hunr : unroundedEarned s start now ≤ 0 := by
    unfold unroundedEarned
    have h60 : 0 ≤ hourlyRateOf s / 60 := by positivity
    exact mul_nonpos_of_nonpos_of_nonneg helapsed h60
  exact ⟨hunr, round2_nonpos hunr⟩

/-- Witness for C5 amended: Scenario A configuration, settlement one
minute before session start. -/
theorem negative_elapsed_not_clamped_witness :
    (0 : ℤ) ≤ 60000 ∧ 0 ≤ cfgA.monthlySalary ∧ 0 ≤ cfgA.dailyHours ∧
    0 ≤ cfgA.weeklyDays ∧
    (unroundedEarned cfgA 60000 0 ≤ 0 ∧ earnedAmount cfgA 60000 0 ≤ 0) :=
  ⟨by decide, by decide, by decide, by decide,
    negative_elapsed_not_clamped cfgA 60000 0 (by decide) (by decide)
      (by decide) (by decide)⟩

/-- C6 counterexample: on the valid Scenario A configuration the
rounded outputs give perHour * monthlyHours = 28.87 * 173.2 = 5000.284,
which misses monthlySalary = 5000 by 0.284, far beyond the claimed
0.01 tolerance. -/
theorem rounded_identity_claim_false :
    ¬ (|(calculateRates cfgA).perHour * (calculateRates cfgA).monthlyHours
        - cfgA.monthlySalary| ≤ 1/100) := by
  rw [calcA_eval]
  norm_num [cfgA]
  rw [abs_of_pos (by norm_num : (0 : ℚ) < 71/250)]
  norm_num

/-- C6 amended: the product identity holds exactly before rounding: for
every configuration with positive dailyHours and weeklyDays,
hourlyRate * monthlyHours = monthlySalary; after independent 2-decimal
rounding of perHour and monthlyHours the product can miss monthlySalary
by more than 0.01 (by 0.284 on Scenario A). -/
theorem rate_times_hours_exact (s : UserSettings)
    (hd : 0 < s.dailyHours) (hw : 0 < s.weeklyDays) :
    hourlyRateOf s * monthlyHoursOf s = s.monthlySalary := by
  have hne : monthlyHoursOf s ≠ 0 := by
    have : 0 < monthlyHoursOf s :=
      mul_pos (mul_pos hd hw) (by norm_num)
    exact ne_of_gt this
  unfold hourlyRateOf
  exact div_mul_cancel₀ _ hne

/-- Witness for C6 amended at the Scenario A configuration. -/
theorem rate_times_hours_exact_witness :
    0 < cfgA.dailyHours ∧ 0 < cfgA.weeklyDays ∧
    hourlyRateOf cfgA * monthlyHoursOf cfgA = cfgA.monthlySalary :=
  ⟨by decide, by decide,
    rate_times_hours_exact cfgA (by decide) (by decide)⟩

/-- C7 counterexample: settlement is not strictly monotonic in elapsed
time after rounding: with the Scenario A configuration (whose hourly
rate 28.8683… is positive), settling 0 ms and 1 ms after the session
start both earn 0.00, although 0 < 1. -/
theorem strict_monotonic_claim_false :
    0 < hourlyRateOf cfgA ∧ (0 : ℤ) < 1 ∧
    ¬ (earnedAmount cfgA 0 0 < earnedAmount cfgA 0 1) := by
  refine ⟨?_, by decide, ?_⟩
  · have h0 : hourlyRateOf cfgA = (5000 : ℚ) / (8 * 5 * (433/100)) := rfl
    rw [h0]
    norm_num
  · have h1 : earnedAmount cfgA 0 0 = 0 := by
      have e0 : earnedAmount cfgA 0 0 =
          round2 ((((0 : ℚ) - 0) / 1000 / 60)
            * ((5000 : ℚ) / (8 * 5 * (433/100)) / 60)) := rfl
      rw [e0, round2_eq_of _ 0 (by norm_num) (by norm_num)]
      norm_num
    have h2 : earnedAmount cfgA 0 1 = 0 := by
      have e1 : earnedAmount cfgA 0 1 =
          round2 ((((1 : ℚ) - 0) / 1000 / 60)
            * ((5000 : ℚ) / (8 * 5 * (433/100)) / 60)) := rfl
      rw [e1, round2_eq_of _ 0 (by norm_num) (by norm_num)]
      norm_num
    rw [h1, h2]
    norm_num

/-- C7 amended: for a configuration with positive salary, dailyHours
and weeklyDays (hence a positive hourly rate), increasing elapsed time
strictly increases the unrounded earned amount, and the stored rounded
earned amount is monotone non-decreasing; strictness is lost only to
the 2-decimal rounding. -/
theorem settlement_monotone (s : UserSettings) (start t1 t2 : ℤ)
    (hm : 0 < s.monthlySalary) (hd : 0 < s.dailyHours)
    (hw : 0 < s.weeklyDays) (h12 : t1 < t2) :
    0 < hourlyRateOf s ∧
    unroundedEarned s start t1 < unroundedEarned s start t2 ∧
    earnedAmount s start t1 ≤ earnedAmount s start t2 := by
  have hmh : 0 < monthlyHoursOf s :=
    mul_pos (mul_pos hd hw) (by norm_num)
  have hrate : 0 < hourlyRateOf s := div_pos hm hmh
  have hr60 : 0 < hourlyRateOf s / 60 := by positivity
  have hq : (t1 : ℚ) < (t2 : ℚ) := by exact_mod_cast h12
  have helapsed : ((t1 : ℚ) - (start : ℚ)) / 1000 / 60
      < ((t2 : ℚ) - (start : ℚ)) / 1000 / 60 := by linarith
  have hstrict : unroundedEarned s start t1 < unroundedEarned s start t2 := by
    unfold unroundedEarned
    exact mul_lt_mul_of_pos_right helapsed hr60
  exact ⟨hrate, hstrict, round2_mono (le_of_lt hstrict)⟩

/-- Witness for C7 amended: Scenario A configuration, elapsed instants
0 ms and 60000 ms. -/
theorem settlement_monotone_witness :
    0 < cfgA.monthlySalary ∧ 0 < cfgA.dailyHours ∧ 0 < cfgA.weeklyDays ∧
    (0 : ℤ) < 60000 ∧
    (0 < hourlyRateOf cfgA ∧
     unroundedEarned cfgA 0 0 < unroundedEarned cfgA 0 60000 ∧
     earnedAmount cfgA 0 0 ≤ earnedAmount cfgA 0 60000) :=
  ⟨by decide, by decide, by decide, by decide,
    settlement_monotone cfgA 0 0 60000 (by decide) (by decide) (by decide)
      (by decide)⟩

/-- C8: the start-session handler is get-or-create: when an active
session already exists for the configuration id it is returned
unchanged and the store is untouched; otherwise a new session is
created and stored with sessionStart = now, totalEarned = 0,
isActive = true and no sessionEnd. -/
theorem start_session_get_or_create (st : StoreState) (uid : String)
    (now : ℤ) (fid : String) (h : uid ≠ "") :
    (∀ s, getActiveSession st uid = some s →
      startIncomeSessionHandler st uid now fid = (.ok s, st)) ∧
    (getActiveSession st uid = none →
      startIncomeSessionHandler st uid now fid =
        (.ok { id := fid, userSettingsId := uid, sessionStart := now
               sessionEnd := none, totalEarned := 0, isActive := true },
         { st with incomeSessions := st.incomeSessions ++
             [{ id := fid, userSettingsId := uid, sessionStart := now
                sessionEnd := none, totalEarned := 0, isActive := true }] })) := by
  constructor
  · intro s hs
    simp [startIncomeSessionHandler, h, hs]
  · intro hn
    simp [startIncomeSessionHandler, h, hn, createIncomeSession]

/-- Witness for C8: a store that already holds an active session for
"cfg-1" returns it untouched, and the empty store creates a fresh one. -/
theorem start_session_get_or_create_witness :
    getActiveSession stC8 "cfg-1" = some sessC8 ∧
    startIncomeSessionHandler stC8 "cfg-1" 99 "fresh-1" = (.ok sessC8, stC8) ∧
    getActiveSession stEmpty "cfg-1" = none ∧
    startIncomeSessionHandler stEmpty "cfg-1" 99 "fresh-1" =
      (.ok { id := "fresh-1", userSettingsId := "cfg-1", sessionStart := 99
             sessionEnd := none, totalEarned := 0, isActive := true },
       { stEmpty with incomeSessions := stEmpty.incomeSessions ++
           [{ id := "fresh-1", userSettingsId := "cfg-1", sessionStart := 99
              sessionEnd := none, totalEarned := 0, isActive := true }] }) :=
  ⟨rfl,
    (start_session_get_or_create stC8 "cfg-1" 99 "fresh-1" (by decide)).1
      sessC8 rfl,
    rfl,
    (start_session_get_or_create stEmpty "cfg-1" 99 "fresh-1" (by decide)).2
      rfl⟩

/-- C9: ending a session that does not exist, or whose isActive is
already false, answers the explicit "Active session not found" failure
and leaves the store completely unchanged; settlement is computed only
in the branch where isActive = true was confirmed. -/
theorem end_inactive_session_no_mutation (st : StoreState) (id : String)
    (now : ℤ) :
    (getIncomeSessionById st id = none →
      endIncomeSessionHandler st id now =
        (.error "Active session not found", st)) ∧
    (∀ s, getIncomeSessionById st id = some s → s.isActive = false →
      endIncomeSessionHandler st id now =
        (.error "Active session not found", st)) := by
  constructor
  · intro hn
    simp [endIncomeSessionHandler, hn]
  · intro s hs hinact
    simp [endIncomeSessionHandler, hs, hinact]

/-- Witness for C9: an id absent from the store, and a stored session
with isActive = false. -/
theorem end_inactive_session_no_mutation_witness :
    getIncomeSessionById stEmpty "sess-9" = none ∧
    endIncomeSessionHandler stEmpty "sess-9" 7 =
      (.error "Active session not found", stEmpty) ∧
    getIncomeSessionById stC9 "sess-9" = some sessC9 ∧
    sessC9.isActive = false ∧
    endIncomeSessionHandler stC9 "sess-9" 7 =
      (.error "Active session not found", stC9) :=
  ⟨rfl,
    (end_inactive_session_no_mutation stEmpty "sess-9" 7).1 rfl,
    rfl, rfl,
    (end_inactive_session_no_mutation stC9 "sess-9" 7).2 sessC9 rfl rfl⟩

/-- C10: the session update merges only the supplied partial fields —
every field the patch leaves out keeps its prior value — and the
settlement patch (totalEarned, sessionEnd, isActive) in particular
preserves id, userSettingsId and sessionStart. -/
theorem update_session_frame (st : StoreState) (id : String)
    (s : IncomeSession) (p : SessionPatch)
    (h : getIncomeSessionById st id = some s) :
    (updateIncomeSession st id p).1 = some (applyPatch s p) ∧
    (p.id = none → (applyPatch s p).id = s.id) ∧
    (p.userSettingsId = none →
      (applyPatch s p).userSettingsId = s.userSettingsId) ∧
    (p.sessionStart = none → (applyPatch s p).sessionStart = s.sessionStart) ∧
    (p.sessionEnd = none → (applyPatch s p).sessionEnd = s.sessionEnd) ∧
    (p.totalEarned = none → (applyPatch s p).totalEarned = s.totalEarned) ∧
    (p.isActive = none → (applyPatch s p).isActive = s.isActive) ∧
    (∀ e n, applyPatch s (settlePatch e n) =
      { s with totalEarned := e, sessionEnd := some n, isActive := false }) := by
  refine ⟨?_, ?_, ?_, ?_, ?_, ?_, ?_, ?_⟩
  · simp [updateIncomeSession, h]
  all_goals intro h1
  · simp [applyPatch, h1]
  · simp [applyPatch, h1]
  · simp [applyPatch, h1]
  · simp [applyPatch, h1]
  · simp [applyPatch, h1]
  · simp [applyPatch, h1]
  · intro n
    simp [applyPatch, settlePatch]

/-- Witness for C10: a patch that supplies only totalEarned, and the
settlement patch, applied to a stored session. -/
theorem update_session_frame_witness :
    getIncomeSessionById stC10 "sess-10" = some sessC10 ∧
    (updateIncomeSession stC10 "sess-10" patchC10).1 =
      some (applyPatch sessC10 patchC10) ∧
    (applyPatch sessC10 patchC10).id = sessC10.id ∧
    (applyPatch sessC10 patchC10).userSettingsId = sessC10.userSettingsId ∧
    (applyPatch sessC10 patchC10).sessionStart = sessC10.sessionStart ∧
    (applyPatch sessC10 patchC10).sessionEnd = sessC10.sessionEnd ∧
    (applyPatch sessC10 patchC10).isActive = sessC10.isActive ∧
    applyPatch sessC10 (settlePatch 7 99) =
      { sessC10 with totalEarned := 7, sessionEnd := some 99
                     isActive := false } :=
  ⟨rfl,
    (update_session_frame stC10 "sess-10" sessC10 patchC10 rfl).1,
    (update_session_frame stC10 "sess-10" sessC10 patchC10 rfl).2.1 rfl,
    (update_session_frame stC10 "sess-10" sessC10 patchC10 rfl).2.2.1 rfl,
    (update_session_frame stC10 "sess-10" sessC10 patchC10 rfl).2.2.2.1 rfl,
    (update_session_frame stC10 "sess-10" sessC10 patchC10 rfl).2.2.2.2.1 rfl,
    (update_session_frame stC10 "sess-10" sessC10 patchC10 rfl).2.2.2.2.2.2.1 rfl,
    (update_session_frame stC10 "sess-10" sessC10 patchC10 rfl).2.2.2.2.2.2.2 7 99⟩

end SalaryServer
